import Mathlib

/-!
Verification development for the cent-github-backend OAuth gateway worker.

The TypeScript sources are embedded shallowly:
- `src/index.ts` — the `/api/github-oauth/*` endpoints and the inline proxy;
- `src/routes/proxy.ts` — the dedicated `/proxy` router (with method override);
- the `/api/oauth/*` endpoints of the older worker entry file;
- `src/lib/state` (not present in the source tree) — the encrypted state
  codec, modelled from the specification.

Pure request handlers are embedded as Lean functions from the request data
and the outcomes of outbound calls (bundled as explicit oracle-function
arguments) to a structured response value.  JavaScript truthiness of
optional string parameters (`undefined` or `""` are falsy) is modelled by
`jsTruthy`.
-/

namespace Cent

/-- JS truthiness of a `string | undefined` value: `undefined` and the empty
string are falsy, every other string is truthy. -/
def jsTruthy : Option String → Bool
  | none => false
  | some s => s != ""

/-- ASCII-lowercase a string (the case fold used by the `Headers` API for
header names; header names in this code are ASCII). -/
def lowerString (s : String) : String := String.mk (s.data.map Char.toLower)

/-- ASCII-uppercase a string (`String.prototype.toUpperCase` on the ASCII
method names this code handles). -/
def toUpperString (s : String) : String := String.mk (s.data.map Char.toUpper)

/-- JavaScript `s.startsWith(p)`: `p` is a literal character-for-character
prefix of `s` (case-sensitive, no URL parsing). -/
def jsStartsWith (s p : String) : Bool :=
  p.data.isPrefixOf s.data

/-- The allowlist membership test of `src/index.ts` (and the identical one in
the older worker entry):
`white_list.some((v) => url.startsWith(v))`.
The configured `white_list` module is not part of the source tree, so the
allowlist is an explicit parameter. -/
def isValidRedirect (whiteList : List String) (url : String) : Bool :=
  whiteList.any (fun v => jsStartsWith url v)

/-- The fixed 400-response message for a rejected redirect target
(`INVALID_REDIRECT_MSG` in both entry files). -/
def INVALID_REDIRECT_MSG : String :=
  "redirect url not valid, see https://github.com/glink25/github-login?tab=readme-ov-file#%E5%A6%82%E4%BD%95%E4%BD%BF%E7%94%A8"

/-! ### URL and query-parameter model

`new URL(...)`, `url.searchParams.set(...)` and `URLSearchParams` are
modelled structurally: a URL is its part before the first `?` plus an
ordered list of query key/value pairs.  Percent-encoding and host
canonicalisation are not needed by any claim and are omitted. -/

structure UrlWithParams where
  base : String
  params : List (String × String)
  deriving DecidableEq, Repr

/-- Split a character list at the first occurrence of `sep`, if any. -/
def splitFirst (sep : Char) : List Char → Option (List Char × List Char)
  | [] => none
  | c :: cs =>
    if c = sep then some ([], cs)
    else
      match splitFirst sep cs with
      | none => none
      | some (a, b) => some (c :: a, b)

/-- Split a character list at every occurrence of `sep`. -/
def splitAll (sep : Char) : List Char → List (List Char)
  | [] => [[]]
  | c :: cs =>
    let r := splitAll sep cs
    if c = sep then [] :: r
    else
      match r with
      | [] => [[c]]
      | h :: t => (c :: h) :: t

/-- Parse a raw query string into key/value pairs (`URLSearchParams`):
split on `&`, then each piece at its first `=`. -/
def parseQuery (q : List Char) : List (String × String) :=
  (splitAll '&' q).filterMap fun kv =>
    match splitFirst '=' kv with
    | none => if kv = [] then none else some (String.mk kv, "")
    | some (k, v) => some (String.mk k, String.mk v)

/-- `new URL(s)`: part before the first `?` plus the parsed query. -/
def parseUrl (s : String) : UrlWithParams :=
  match splitFirst '?' s.data with
  | none => ⟨s, []⟩
  | some (b, q) => ⟨String.mk b, parseQuery q⟩

/-- `URLSearchParams.set(k, v)` on the pair list: replace the first binding
of `k` (dropping later duplicates), or append `(k, v)` if `k` is absent. -/
def setParamList : List (String × String) → String → String → List (String × String)
  | [], k, v => [(k, v)]
  | (k', v') :: rest, k, v =>
    if k' = k then (k, v) :: rest.filter (fun p => p.1 ≠ k)
    else (k', v') :: setParamList rest k v

/-- `url.searchParams.set(k, v)`. -/
def setParam (u : UrlWithParams) (k v : String) : UrlWithParams :=
  ⟨u.base, setParamList u.params k v⟩

/-! ### The authorize endpoints -/

/-- Environment bindings consumed by the handlers (Cloudflare `env`). -/
structure Env where
  GITHUB_CLIENT_ID : String
  GITHUB_CLIENT_SECRET : String
  ENCRYPTION_SECRETS : String
  deriving DecidableEq

/-- Result of an authorize request: a 400 JSON error body `{error: ...}`
(no redirect), or a redirect to the provider URL. -/
inductive AuthorizeResult where
  | badRequest (error : String)
  | redirect (url : UrlWithParams)
  deriving DecidableEq, Repr

/-- `GET /api/github-oauth/authorize` from `src/index.ts`.
`encode` is the (asynchronous) `encodeState` function, passed explicitly so
that theorems can express that it is never invoked on the error paths.
The provider authorize URL is built by `searchParams.set("client_id", ...)`
and `searchParams.set("state", ...)`; no `redirect_uri` parameter is set
(the commented-out line in the source). -/
def githubAuthorize (whiteList : List String) (env : Env)
    (encode : String → String → String) (redirectUri? : Option String) :
    AuthorizeResult :=
  if ¬ jsTruthy redirectUri? then .badRequest "`redirect_uri` is required."
  else
    let appReturnUrl := redirectUri?.getD ""
    if ¬ isValidRedirect whiteList appReturnUrl then .badRequest INVALID_REDIRECT_MSG
    else
      let state := encode appReturnUrl env.ENCRYPTION_SECRETS
      .redirect ⟨"https://github.com/login/oauth/authorize",
        [("client_id", env.GITHUB_CLIENT_ID), ("state", state)]⟩

/-- The fixed authorize URL of the older `/api/oauth/authorize` endpoint
(`GITHUB_OAUTH_AUTHORIZE_URL`, already carrying its own query string). -/
def GITHUB_OAUTH_AUTHORIZE_URL : String :=
  "https://github.com/apps/oncent-accounting/installations/new/permissions?target_id=49364151&target_type=User"

/-- `GET /api/oauth/authorize` from the older worker entry file.
`xfProto?` is the request's `x-forwarded-proto` header and `host` its
`Host` header; the endpoint computes
`redirect_uri = \x7bproto\x7d://\x7bhost\x7d/api/oauth/authorized` and sends it to the
provider together with `client_id` and `state`
(`new URLSearchParams({client_id, redirect_uri, state})`). -/
def oauthAuthorize (whiteList : List String) (env : Env)
    (encode : String → String → String) (redirectUri? : Option String)
    (xfProto? : Option String) (host : String) : AuthorizeResult :=
  if ¬ jsTruthy redirectUri? then .badRequest "`redirect_uri` is required."
  else
    let appReturnUrl := redirectUri?.getD ""
    if ¬ isValidRedirect whiteList appReturnUrl then .badRequest INVALID_REDIRECT_MSG
    else
      let proto := if jsTruthy xfProto? then xfProto?.getD "" else "http"
      let redirectUri := proto ++ "://" ++ host ++ "/api/oauth/authorized"
      let state := encode appReturnUrl env.ENCRYPTION_SECRETS
      .redirect ⟨GITHUB_OAUTH_AUTHORIZE_URL,
        [("client_id", env.GITHUB_CLIENT_ID), ("redirect_uri", redirectUri),
         ("state", state)]⟩

/-- The query parameters of a redirect result (empty for an error result). -/
def redirectParams : AuthorizeResult → List (String × String)
  | .redirect u => u.params
  | .badRequest _ => []

/-! ### The callback endpoints -/

/-- Outcome of an outbound `fetch` whose JSON body is then parsed as `α`:
either `response.ok` was false (status and body text), or the parsed data.
(A rejected `fetch` promise is not caught by the `github-oauth` handler and
surfaces as the framework's generic 500; no claim depends on that path.) -/
inductive FetchOutcome (α : Type) where
  | notOk (status : Nat) (body : String)
  | ok (data : α)
  deriving DecidableEq, Repr

/-- The JSON body of the `github-oauth` token-exchange POST:
`{client_id, client_secret, code}`. -/
structure ExchangeBody where
  client_id : String
  client_secret : String
  code : String
  deriving DecidableEq, Repr

/-- The fields of the token-exchange response the handler reads
(`{access_token?, error?}`). -/
structure TokenData where
  access_token : Option String
  error : Option String
  deriving DecidableEq, Repr

/-- The fields of the `/user/installations` response the handler reads. -/
structure InstallationsData where
  total_count : Nat
  installations : List Unit
  deriving DecidableEq, Repr

/-- Result of a `github-oauth` callback request: an `HTTPException` with a
status and message, or a redirect. -/
inductive GithubCallbackResult where
  | httpError (status : Nat) (message : String)
  | redirect (url : UrlWithParams)
  deriving DecidableEq, Repr

/-- Template interpolation of a possibly-undefined value
(JS renders `undefined` as the string `"undefined"`). -/
def jsInterpolate : Option String → String
  | none => "undefined"
  | some s => s

/-- The configured App slug of `src/index.ts`. -/
def GITHUB_APP_SLUG : String := "cent-accounting"

/-- `JSON.stringify(tokenData)` restricted to the fields carried by the
model (`JSON.stringify` omits `undefined` fields). -/
def stringifyTokenData (td : TokenData) : String :=
  "\x7b" ++
    String.intercalate ","
      (([td.access_token.map (fun v => "\"access_token\":\"" ++ v ++ "\""),
         td.error.map (fun v => "\"error\":\"" ++ v ++ "\"")]).filterMap id) ++
  "\x7d"

/-- `GET /api/github-oauth/authorized` from `src/index.ts`.
`decode` is `decodeState(state, secret)` (`Except` carries `err.message`),
`tokenFetch` the token-exchange POST keyed by the exact JSON body sent, and
`installFetch` the `/user/installations` GET keyed by the bearer token. -/
def githubAuthorized (whiteList : List String) (env : Env)
    (decode : Option String → String → Except String String)
    (tokenFetch : ExchangeBody → FetchOutcome TokenData)
    (installFetch : String → FetchOutcome InstallationsData)
    (code? state? : Option String) : GithubCallbackResult :=
  if ¬ (jsTruthy code? ∧ jsTruthy state?) then
    .httpError 400 "Missing \"code\" or \"state\" query parameter."
  else
    let code := code?.getD ""
    let state := state?.getD ""
    match decode (some state) env.ENCRYPTION_SECRETS with
    | .error msg => .httpError 400 msg
    | .ok appReturnUrl =>
      if ¬ isValidRedirect whiteList appReturnUrl then
        .httpError 400 INVALID_REDIRECT_MSG
      else
        let returnUrl := parseUrl appReturnUrl
        match tokenFetch ⟨env.GITHUB_CLIENT_ID, env.GITHUB_CLIENT_SECRET, code⟩ with
        | .notOk _ _ =>
          .httpError 500 "Failed to exchange code for access token."
        | .ok tokenData =>
          if jsTruthy tokenData.error ∨ ¬ jsTruthy tokenData.access_token then
            .httpError 400
              ("GitHub returned an error: " ++ jsInterpolate tokenData.error)
          else
            let accessToken := tokenData.access_token.getD ""
            match installFetch accessToken with
            | .notOk _ _ =>
              .httpError 500 "Failed to check app installation status."
            | .ok idata =>
              if 0 < idata.total_count ∧ 0 < idata.installations.length then
                .redirect
                  (setParam returnUrl "github_authorized"
                    (stringifyTokenData tokenData))
              else
                .redirect
                  ⟨"https://github.com/apps/" ++ GITHUB_APP_SLUG
                      ++ "/installations/new",
                    [("state", state)]⟩

/-- The JSON body of the older `/api/oauth/authorized` token-exchange POST:
`{client_id, client_secret, code, state}`. -/
structure OauthExchangeBody where
  client_id : String
  client_secret : String
  code : String
  state : String
  deriving DecidableEq, Repr

/-- The fields of the upstream token JSON read by the older callback
(absent fields are modelled as `""`). -/
structure LoginData where
  access_token : String
  refresh_token : String
  deriving DecidableEq, Repr

/-- Result of an `/api/oauth/*` request: a JSON error body `{error: ...}`
with a status, or a 302 redirect. -/
inductive OauthCallbackResult where
  | jsonError (status : Nat) (error : String)
  | redirect (url : UrlWithParams)
  deriving DecidableEq, Repr

/-- `TOKEN_VALIDITY_PERIOD` (one year in milliseconds). -/
def TOKEN_VALIDITY_PERIOD : Nat := 1000 * 60 * 60 * 24 * 365

/-- `GET /api/oauth/authorized` from the older worker entry file.
`exchange` is the token-exchange `fetch` inside its `try`/`catch`
(`Except.error` carries `err.message` of the network failure or of the
thrown non-ok-status error), `encodeSession` is
`encodeState(token, secret, expiresAt)`, and `now` is `Date.now()`.
Note the provider-error branch: the code attaches the `error` query
parameter to a fresh URL object `rUrl` but then redirects to
`returnUrl.href`, so `rUrl` is discarded. -/
def oauthAuthorized (whiteList : List String) (env : Env)
    (decode : Option String → String → Except String String)
    (exchange : OauthExchangeBody → Except String LoginData)
    (encodeSession : String → String → Nat → String)
    (now : Nat)
    (code? state? error? : Option String) : OauthCallbackResult :=
  match decode state? env.ENCRYPTION_SECRETS with
  | .error msg => .jsonError 400 msg
  | .ok appReturnUrl =>
    if ¬ isValidRedirect whiteList appReturnUrl then
      .jsonError 400 INVALID_REDIRECT_MSG
    else
      let returnUrl := parseUrl appReturnUrl
      if jsTruthy error? then
        let _rUrl := setParam (parseUrl appReturnUrl) "error" (error?.getD "")
        .redirect returnUrl
      else
        if ¬ (jsTruthy code? ∧ jsTruthy state?) then
          .jsonError 400 "`code` and `state` are required."
        else
          match exchange ⟨env.GITHUB_CLIENT_ID, env.GITHUB_CLIENT_SECRET,
              code?.getD "", state?.getD ""⟩ with
          | .error msg => .jsonError 503 msg
          | .ok loginData =>
            let accessSession := encodeSession loginData.access_token
              env.ENCRYPTION_SECRETS (now + TOKEN_VALIDITY_PERIOD)
            let refreshSession := encodeSession loginData.refresh_token
              env.ENCRYPTION_SECRETS (now + TOKEN_VALIDITY_PERIOD)
            .redirect
              (setParam (setParam returnUrl "accessSession" accessSession)
                "refreshSession" refreshSession)

/-! ### The reverse proxy (`src/routes/proxy.ts`) -/

/-- The inbound request data the `/proxy` handler reads: the HTTP method,
the `url` and `method` query parameters, the raw headers and the raw body
bytes (`c.req.arrayBuffer()`). -/
structure ProxyRequestIn where
  method : String
  urlParam? : Option String
  methodParam? : Option String
  headers : List (String × String)
  body : List Nat
  deriving DecidableEq, Repr

/-- `Headers.delete(name)`: removes every entry whose name matches
case-insensitively. -/
def deleteHeader (hs : List (String × String)) (name : String) :
    List (String × String) :=
  hs.filter fun kv => lowerString kv.1 ≠ lowerString name

/-- Whether a header list carries an entry with the given name
(case-insensitive, like `Headers`). -/
def hasHeader (hs : List (String × String)) (name : String) : Bool :=
  hs.any fun kv => lowerString kv.1 == lowerString name

/-- The effective method of the `/proxy` router:
`(overrideMethod || c.req.method).toUpperCase()`. -/
def effectiveMethod (methodParam? : Option String) (reqMethod : String) :
    String :=
  toUpperString (if jsTruthy methodParam? then methodParam?.getD "" else reqMethod)

/-- The body forwarded upstream: read (`c.req.arrayBuffer()`) and attached
for every effective method other than `GET` and `HEAD`, `null` otherwise. -/
def forwardedBody (method : String) (body : List Nat) : Option (List Nat) :=
  if method ≠ "GET" ∧ method ≠ "HEAD" then some body else none

/-- The request the proxy hands to `fetch`: the parsed target URL, the
effective method, the inbound headers minus `Origin` and `Host`, and the
body per `forwardedBody`. -/
structure ForwardedRequest where
  url : String
  method : String
  headers : List (String × String)
  body : Option (List Nat)
  deriving DecidableEq, Repr

/-- The upstream response as the handler observes it. -/
structure UpstreamResponse where
  status : Nat
  headers : List (String × String)
  body : List Nat
  deriving DecidableEq, Repr

/-- Result of a `/proxy` request: a 400 text body, a 502 text body, or the
relayed upstream response. -/
inductive ProxyOutcome where
  | badRequest (msg : String)
  | badGateway (msg : String)
  | relayed (status : Nat) (headers : List (String × String)) (body : List Nat)
  deriving DecidableEq, Repr

/-- Build the forwarded request from the parsed target URL and the inbound
request (`new Headers` minus `Origin`/`Host`, effective method, body). -/
def forwardedRequest (url : String) (req : ProxyRequestIn) : ForwardedRequest :=
  let method := effectiveMethod req.methodParam? req.method
  ⟨url, method,
    deleteHeader (deleteHeader req.headers "Origin") "Host",
    forwardedBody method req.body⟩

/-- The response-header scrub performed before relaying:
`Content-Security-Policy`, `X-Frame-Options` and
`Access-Control-Allow-Origin` are deleted. -/
def scrubResponseHeaders (hs : List (String × String)) :
    List (String × String) :=
  deleteHeader
    (deleteHeader (deleteHeader hs "Content-Security-Policy")
      "X-Frame-Options")
    "Access-Control-Allow-Origin"

/-- `ALL /proxy` from `src/routes/proxy.ts`.  `urlParse` models the WHATWG
`new URL(...)` constructor (`none` when it throws, `url.toString()`
otherwise); `fetchOracle` models the outbound `fetch` inside its
`try`/`catch` (`Except.error` carries the interpolated exception text). -/
def handleProxy (urlParse : String → Option String) (req : ProxyRequestIn)
    (fetchOracle : ForwardedRequest → Except String UpstreamResponse) :
    ProxyOutcome :=
  if ¬ jsTruthy req.urlParam? then
    .badRequest "Missing \"url\" query parameter."
  else
    match urlParse (req.urlParam?.getD "") with
    | none => .badRequest "Invalid target URL format."
    | some url =>
      match fetchOracle (forwardedRequest url req) with
      | .error e => .badGateway ("Failed to fetch target URL: " ++ e)
      | .ok resp =>
        .relayed resp.status (scrubResponseHeaders resp.headers) resp.body

/-! ### The remaining endpoints and the whole-application dispatcher -/

/-- The JSON body of the refresh-grant POST of
`/api/github-oauth/refresh-token`:
`{client_id, client_secret, grant_type, refresh_token}`. -/
structure RefreshBody where
  client_id : String
  client_secret : String
  grant_type : String
  refresh_token : String
  deriving DecidableEq, Repr

/-- Result of a `/api/github-oauth/refresh-token` request: an
`HTTPException` with a status and message, or the token bundle echoed as
the 200 JSON body. -/
inductive RefreshResult where
  | httpError (status : Nat) (message : String)
  | json (data : TokenData)
  deriving DecidableEq, Repr

/-- `POST /api/github-oauth/refresh-token` from `src/index.ts`.
`refreshToken?` is the `refreshToken` field of the parsed request body
(`none` when absent); `refreshFetch` models the refresh-grant POST keyed
by the exact JSON body sent. -/
def githubRefreshToken (env : Env)
    (refreshFetch : RefreshBody → FetchOutcome TokenData)
    (refreshToken? : Option String) : RefreshResult :=
  if ¬ jsTruthy refreshToken? then .httpError 500 "invalid refresh token."
  else
    match refreshFetch ⟨env.GITHUB_CLIENT_ID, env.GITHUB_CLIENT_SECRET,
        "refresh_token", refreshToken?.getD ""⟩ with
    | .notOk _ _ => .httpError 500 "Failed to exchange code for access token."
    | .ok tokenData =>
      if jsTruthy tokenData.error ∨ ¬ jsTruthy tokenData.access_token then
        .httpError 400
          ("GitHub returned an error: " ++ jsInterpolate tokenData.error)
      else .json tokenData

/-- Result of a `/api/oauth/token` session-unwrap request: a JSON error
body `{error: ...}` with a status, or the 200 JSON body `{token: ...}`. -/
inductive TokenUnwrapResult where
  | jsonError (status : Nat) (error : String)
  | ok (token : String)
  deriving DecidableEq, Repr

/-- `POST /api/oauth/token` from the older worker entry file.
`session?` is the `session` field of the parsed request body. -/
def oauthToken (env : Env)
    (decode : Option String → String → Except String String)
    (session? : Option String) : TokenUnwrapResult :=
  if ¬ jsTruthy session? then .jsonError 400 "Unable to parse request body."
  else
    match decode session? env.ENCRYPTION_SECRETS with
    | .error msg => .jsonError 400 msg
    | .ok token => .ok token

/-- A request to any endpoint of the application, with the data each
handler reads from it. -/
inductive AppRequest where
  | githubAuthorize (redirectUri? : Option String)
  | githubAuthorized (code? state? : Option String)
  | githubRefreshToken (refreshToken? : Option String)
  | oauthAuthorize (redirectUri? : Option String) (xfProto? : Option String)
      (host : String)
  | oauthAuthorized (code? state? error? : Option String)
  | oauthToken (session? : Option String)
  | proxy (req : ProxyRequestIn)

/-- A response from any endpoint of the application. -/
inductive AppResponse where
  | authorize (r : AuthorizeResult)
  | githubCallback (r : GithubCallbackResult)
  | refresh (r : RefreshResult)
  | oauthCallback (r : OauthCallbackResult)
  | tokenUnwrap (r : TokenUnwrapResult)
  | proxy (r : ProxyOutcome)
  deriving DecidableEq

/-- The oracle functions for every outbound call and codec use of the
application, bundled. -/
structure Oracles where
  encode : String → String → String
  decode : Option String → String → Except String String
  tokenFetch : ExchangeBody → FetchOutcome TokenData
  installFetch : String → FetchOutcome InstallationsData
  refreshFetch : RefreshBody → FetchOutcome TokenData
  exchange : OauthExchangeBody → Except String LoginData
  encodeSession : String → String → Nat → String
  urlParse : String → Option String
  proxyFetch : ForwardedRequest → Except String UpstreamResponse

/-- The whole application: dispatch a request to its endpoint's handler.
The proxy handlers never read `c.env`, so the proxy branch receives no
environment, exactly as in the source. -/
def appResponse (whiteList : List String) (env : Env) (o : Oracles)
    (now : Nat) : AppRequest → AppResponse
  | .githubAuthorize r => .authorize (githubAuthorize whiteList env o.encode r)
  | .githubAuthorized c s =>
    .githubCallback
      (githubAuthorized whiteList env o.decode o.tokenFetch o.installFetch c s)
  | .githubRefreshToken r => .refresh (githubRefreshToken env o.refreshFetch r)
  | .oauthAuthorize r xf h =>
    .authorize (oauthAuthorize whiteList env o.encode r xf h)
  | .oauthAuthorized c s e =>
    .oauthCallback
      (oauthAuthorized whiteList env o.decode o.exchange o.encodeSession now
        c s e)
  | .oauthToken s => .tokenUnwrap (oauthToken env o.decode s)
  | .proxy req => .proxy (handleProxy o.urlParse req o.proxyFetch)

/-! ### The encrypted state codec (`src/lib/state`)

The codec itself is not part of the source tree — only its callers are —
so it is modelled from the specification (§3, §4.1): authenticated
symmetric encryption of a string payload with optional expiry, a fresh
random nonce per encoding, key material derived from the shared secret,
and failures that distinguish tamper/malformed from expired. -/

/-- The `StateError` failure kinds of §4.1/§7.  `malformed` is the failure
to parse the serialized token string, which the structural token model
below cannot produce. -/
inductive StateError where
  | malformed
  | tampered
  | expired
  deriving DecidableEq, Repr

/-- A state token, structurally: the per-encoding nonce, the optional
absolute expiry timestamp, the encrypted payload and the authentication
tag. -/
structure StateToken where
  nonce : Nat
  expiresAt : Option Nat
  ciphertext : List Nat
  tag : Nat
  deriving DecidableEq, Repr

/-- Key material derived from the shared secret string (done once per
secret and reused, per §4.1; any injective-enough mixing serves the
model). -/
def strSeed (s : String) : Nat :=
  s.data.foldl (fun a c => a * 131 + c.toNat + 1) 7

/-- The keystream value for a given secret and nonce. -/
def keyNat (secret : String) (nonce : Nat) : Nat :=
  strSeed secret * 2654435761 + nonce * 40503 + 17

/-- The authentication tag over secret, nonce, expiry and ciphertext. -/
def macNat (secret : String) (nonce : Nat) (expiresAt : Option Nat)
    (ct : List Nat) : Nat :=
  ct.foldl (fun a b => a * 1000003 + b + 1)
    (keyNat secret (nonce + 1) +
      (match expiresAt with
        | none => 0
        | some t => 2 * t + 1))

/-- Modelled from the spec: `encodeState(payload, secret, expiresAt?)` of
the missing `src/lib/state` module.  Authenticated symmetric encryption of
the payload under key material derived from `secret`, with the fresh
random per-call nonce taken as an explicit argument (so identical payloads
with different nonces yield different tokens), and the optional absolute
expiry bound into the authenticated data. -/
def encodeState (payload secret : String) (expiresAt : Option Nat)
    (nonce : Nat) : StateToken :=
  let k := keyNat secret nonce
  let ct := payload.data.map (fun c => c.toNat + k)
  ⟨nonce, expiresAt, ct, macNat secret nonce expiresAt ct⟩

/-- Modelled from the spec: `decodeState(token, secret)` of the missing
`src/lib/state` module, evaluated at time `now`.  The integrity check
comes first — a wrong key and a modified ciphertext both fail as
`tampered` — then the expiry check (`expired` iff `now` is past
`expiresAt`), then decryption of the payload. -/
def decodeState (t : StateToken) (secret : String) (now : Nat) :
    Except StateError String :=
  if t.tag = macNat secret t.nonce t.expiresAt t.ciphertext then
    let plain := String.mk
      ((t.ciphertext.map (fun c => c - keyNat secret t.nonce)).map Char.ofNat)
    match t.expiresAt with
    | some e => if e < now then .error .expired else .ok plain
    | none => .ok plain
  else .error .tampered

end Cent

/-- C1: `isValidRedirect` returns true iff some configured prefix `p` in the
allowlist satisfies `url.startsWith(p)` (case-sensitive prefix match, no
origin parsing); with allowlist `["https://a.example"]` it accepts both
`"https://a.example/x"` and `"https://a.example.evil.com"`. -/
theorem isValidRedirect_spec :
    (∀ (wl : List String) (u : String),
      Cent.isValidRedirect wl u = true ↔ ∃ p ∈ wl, Cent.jsStartsWith u p = true) ∧
    Cent.isValidRedirect ["https://a.example"] "https://a.example/x" = true ∧
    Cent.isValidRedirect ["https://a.example"] "https://a.example.evil.com" = true := by
  refine ⟨fun wl u => ?_, by decide, by decide⟩
  simp [Cent.isValidRedirect, List.any_eq_true]

/-- C4, counterexample: the `/api/oauth/authorize` endpoint *does* transmit a
`redirect_uri` parameter derived from the inbound request — it is built from
the request's `x-forwarded-proto` and `Host` headers, so two requests that
differ only in their `Host` header send different `redirect_uri` values to
the provider. -/
theorem oauthAuthorize_sends_host_derived_redirect_uri :
    (Cent.redirectParams
        (Cent.oauthAuthorize ["https://a.example"] ⟨"cid", "cs", "es"⟩
          (fun p _ => p) (some "https://a.example/x") none "attacker.test")).lookup
        "redirect_uri" = some "http://attacker.test/api/oauth/authorized" ∧
    (Cent.redirectParams
        (Cent.oauthAuthorize ["https://a.example"] ⟨"cid", "cs", "es"⟩
          (fun p _ => p) (some "https://a.example/x") none "other.test")).lookup
        "redirect_uri" = some "http://other.test/api/oauth/authorized" := by
  constructor <;> rfl

/-- C4, amended: the `/api/github-oauth/authorize` redirect carries exactly
the client identifier and the state token and no `redirect_uri` parameter at
all; the older `/api/oauth/authorize` endpoint does transmit a
`redirect_uri`, but it is the server's own `/api/oauth/authorized` callback
address built from the request's `x-forwarded-proto` and `Host` headers —
the caller-supplied `redirect_uri` query value is never forwarded to the
provider as the provider-level redirect target. -/
theorem authorize_redirect_uri_policy (wl : List String) (env : Cent.Env)
    (enc : String → String → String) (u : String) (xf : Option String)
    (host : String) (h1 : Cent.jsTruthy (some u) = true)
    (h2 : Cent.isValidRedirect wl u = true) :
    Cent.githubAuthorize wl env enc (some u) =
      .redirect ⟨"https://github.com/login/oauth/authorize",
        [("client_id", env.GITHUB_CLIENT_ID),
         ("state", enc u env.ENCRYPTION_SECRETS)]⟩ ∧
    (Cent.redirectParams (Cent.githubAuthorize wl env enc (some u))).lookup
        "redirect_uri" = none ∧
    Cent.oauthAuthorize wl env enc (some u) xf host =
      .redirect ⟨Cent.GITHUB_OAUTH_AUTHORIZE_URL,
        [("client_id", env.GITHUB_CLIENT_ID),
         ("redirect_uri",
           (if Cent.jsTruthy xf then xf.getD "" else "http") ++ "://" ++ host
             ++ "/api/oauth/authorized"),
         ("state", enc u env.ENCRYPTION_SECRETS)]⟩ := by
  refine ⟨?_, ?_, ?_⟩ <;>
    simp [Cent.githubAuthorize, Cent.oauthAuthorize, Cent.redirectParams,
      h1, h2, List.lookup]

/-- Witness for the amended C4 theorem at a concrete input. -/
theorem authorize_redirect_uri_policy_witness :
    Cent.githubAuthorize ["https://a.example"] ⟨"cid", "cs", "es"⟩
        (fun p _ => p) (some "https://a.example/x") =
      .redirect ⟨"https://github.com/login/oauth/authorize",
        [("client_id", "cid"), ("state", "https://a.example/x")]⟩ :=
  (authorize_redirect_uri_policy ["https://a.example"] ⟨"cid", "cs", "es"⟩
    (fun p _ => p) "https://a.example/x" none "h.test" (by decide)
    (by decide)).1

/-- C7: an authorize request whose `redirect_uri` query parameter is absent,
empty (JS-falsy), or not allowlisted gets a 400 JSON error body — never a
redirect — and the state encoder is never invoked: the result does not
depend on the `encodeState` function at all.  Both the
`/api/github-oauth/authorize` and `/api/oauth/authorize` endpoints are
covered. -/
theorem authorize_invalid_redirect_uri_rejected (wl : List String)
    (env : Cent.Env) (enc enc' : String → String → String)
    (r? : Option String) (xf : Option String) (host : String)
    (h : Cent.jsTruthy r? = false ∨
      Cent.isValidRedirect wl (r?.getD "") = false) :
    Cent.githubAuthorize wl env enc r? =
      .badRequest (if Cent.jsTruthy r? then Cent.INVALID_REDIRECT_MSG
        else "`redirect_uri` is required.") ∧
    Cent.githubAuthorize wl env enc r? = Cent.githubAuthorize wl env enc' r? ∧
    Cent.oauthAuthorize wl env enc r? xf host =
      .badRequest (if Cent.jsTruthy r? then Cent.INVALID_REDIRECT_MSG
        else "`redirect_uri` is required.") ∧
    Cent.oauthAuthorize wl env enc r? xf host =
      Cent.oauthAuthorize wl env enc' r? xf host := by
  cases hT : Cent.jsTruthy r? with
  | false =>
    refine ⟨?_, ?_, ?_, ?_⟩ <;>
      simp [Cent.githubAuthorize, Cent.oauthAuthorize, hT]
  | true =>
    rcases h with h | h
    · rw [hT] at h; cases h
    · refine ⟨?_, ?_, ?_, ?_⟩ <;>
        simp [Cent.githubAuthorize, Cent.oauthAuthorize, hT, h]

/-- Witness for C7 at a concrete non-allowlisted `redirect_uri`. -/
theorem authorize_invalid_redirect_uri_rejected_witness :
    Cent.githubAuthorize ["https://a.example"] ⟨"cid", "cs", "es"⟩
        (fun p _ => p) (some "https://evil.test/x") =
      .badRequest Cent.INVALID_REDIRECT_MSG :=
  (authorize_invalid_redirect_uri_rejected ["https://a.example"]
    ⟨"cid", "cs", "es"⟩ (fun p _ => p) (fun _ _ => "other")
    (some "https://evil.test/x") none "h.test" (Or.inr (by decide))).1

/-- C2 (code bug): a callback whose state decodes to an allowlisted return
URL and whose query carries a provider `error` parameter redirects to the
*bare* return URL — the error value is set on a fresh URL object that the
code then discards, so no `error` query parameter appears on the redirect
(the claim and the spec say it must be attached).  The token exchange is
indeed skipped: the result is the same for every `exchange` oracle. -/
theorem oauthAuthorized_error_branch_drops_error_param :
    ∀ (exchange : Cent.OauthExchangeBody → Except String Cent.LoginData)
      (encodeSession : String → String → Nat → String) (now : Nat),
      Cent.oauthAuthorized ["https://a.example"] ⟨"cid", "cs", "es"⟩
          (fun s _ =>
            if s = some "STATE" then .ok "https://a.example/x"
            else .error "invalid state")
          exchange encodeSession now
          (some "c") (some "STATE") (some "access_denied") =
        .redirect ⟨"https://a.example/x", []⟩ := by
  intro exchange encodeSession now
  rfl

/-- C3: on a successful callback (both query parameters present, state
decoding to an allowlisted URL, token exchange returning a token bundle
with an access token and no error, installation query succeeding and
reporting a consistent count), the handler redirects to the provider's
App-installation page carrying the identical incoming `state` value when
the installation count is zero, and otherwise redirects to the decoded
return URL with the token data attached as the `github_authorized`
parameter — the install URL appears in no other outcome. -/
theorem githubAuthorized_installation_branching (wl : List String)
    (env : Cent.Env)
    (decode : Option String → String → Except String String)
    (tokenFetch : Cent.ExchangeBody → Cent.FetchOutcome Cent.TokenData)
    (installFetch : String → Cent.FetchOutcome Cent.InstallationsData)
    (code state url : String) (td : Cent.TokenData)
    (idata : Cent.InstallationsData)
    (hc : code ≠ "") (hs : state ≠ "")
    (hdec : decode (some state) env.ENCRYPTION_SECRETS = .ok url)
    (hval : Cent.isValidRedirect wl url = true)
    (htok : tokenFetch ⟨env.GITHUB_CLIENT_ID, env.GITHUB_CLIENT_SECRET, code⟩
      = .ok td)
    (herr : Cent.jsTruthy td.error = false)
    (hat : Cent.jsTruthy td.access_token = true)
    (hinst : installFetch (td.access_token.getD "") = .ok idata)
    (hcons : idata.installations.length = idata.total_count) :
    Cent.githubAuthorized wl env decode tokenFetch installFetch
        (some code) (some state) =
      if idata.total_count = 0 then
        .redirect ⟨"https://github.com/apps/cent-accounting/installations/new",
          [("state", state)]⟩
      else
        .redirect
          (Cent.setParam (Cent.parseUrl url) "github_authorized"
            (Cent.stringifyTokenData td)) := by
  have hc' : Cent.jsTruthy (some code) = true := by
    simp [Cent.jsTruthy, hc]
  have hs' : Cent.jsTruthy (some state) = true := by
    simp [Cent.jsTruthy, hs]
  rcases Nat.eq_zero_or_pos idata.total_count with h0 | hpos
  · simp [Cent.githubAuthorized, hc', hs', hdec, hval, htok, herr, hat,
      hinst, hcons, h0, Cent.GITHUB_APP_SLUG]
  · have hne : idata.total_count ≠ 0 := Nat.pos_iff_ne_zero.mp hpos
    simp [Cent.githubAuthorized, hc', hs', hdec, hval, htok, herr, hat,
      hinst, hcons, hpos, hne]

/-- Witness for C3 at a concrete input (zero installations). -/
theorem githubAuthorized_installation_branching_witness :
    Cent.githubAuthorized ["https://a.example"] ⟨"cid", "cs", "es"⟩
        (fun s _ =>
          if s = some "STATE" then .ok "https://a.example/x"
          else .error "invalid state")
        (fun _ => .ok ⟨some "tok", none⟩)
        (fun _ => .ok ⟨0, []⟩)
        (some "c") (some "STATE") =
      .redirect ⟨"https://github.com/apps/cent-accounting/installations/new",
        [("state", "STATE")]⟩ :=
  githubAuthorized_installation_branching ["https://a.example"]
    ⟨"cid", "cs", "es"⟩
    (fun s _ =>
      if s = some "STATE" then .ok "https://a.example/x"
      else .error "invalid state")
    (fun _ => .ok ⟨some "tok", none⟩)
    (fun _ => .ok ⟨0, []⟩)
    "c" "STATE" "https://a.example/x" ⟨some "tok", none⟩ ⟨0, []⟩
    (by decide) (by decide) (by rfl) (by decide) (by rfl) (by rfl) (by rfl)
    (by rfl) (by rfl)

/-- C8: neither the OAuth client secret nor the state-encryption shared
secret can appear in the response of any endpoint of the application —
every response (success or error, all bodies included) is a function only
of the non-secret inputs and of the *outcomes* of the codec and upstream
calls: changing both secret values while the oracles' outputs at the
corresponding call sites are unchanged leaves the response to every
request to every endpoint identical, so the secret values themselves never
flow into a response. -/
theorem responses_independent_of_secrets (wl : List String)
    (cid sec sec' es es' : String) (o : Cent.Oracles) (now : Nat)
    (req : Cent.AppRequest)
    (hencode : ∀ p, o.encode p es = o.encode p es')
    (hdec : ∀ s, o.decode s es = o.decode s es')
    (htok : ∀ c, o.tokenFetch ⟨cid, sec, c⟩ = o.tokenFetch ⟨cid, sec', c⟩)
    (hrefresh : ∀ r, o.refreshFetch ⟨cid, sec, "refresh_token", r⟩ =
      o.refreshFetch ⟨cid, sec', "refresh_token", r⟩)
    (hexch : ∀ c s, o.exchange ⟨cid, sec, c, s⟩ = o.exchange ⟨cid, sec', c, s⟩)
    (hsess : ∀ t e, o.encodeSession t es e = o.encodeSession t es' e) :
    Cent.appResponse wl ⟨cid, sec, es⟩ o now req =
      Cent.appResponse wl ⟨cid, sec', es'⟩ o now req := by
  cases req with
  | githubAuthorize r =>
    simp only [Cent.appResponse, Cent.githubAuthorize, hencode]
  | githubAuthorized c s =>
    simp only [Cent.appResponse, Cent.githubAuthorized, hdec, htok]
  | githubRefreshToken r =>
    simp only [Cent.appResponse, Cent.githubRefreshToken, hrefresh]
  | oauthAuthorize r xf h =>
    simp only [Cent.appResponse, Cent.oauthAuthorize, hencode]
  | oauthAuthorized c s e =>
    simp only [Cent.appResponse, Cent.oauthAuthorized, hdec, hexch, hsess]
  | oauthToken s =>
    simp only [Cent.appResponse, Cent.oauthToken, hdec]
  | proxy preq => rfl

/-- Witness for C8 at a concrete request with two different secret pairs. -/
theorem responses_independent_of_secrets_witness :
    Cent.appResponse ["https://a.example"] ⟨"cid", "s1", "e1"⟩
        ⟨fun p _ => p, fun _ _ => .error "invalid state",
          fun _ => .notOk 500 "", fun _ => .notOk 500 "",
          fun _ => .notOk 500 "", fun _ => .error "boom",
          fun _ _ _ => "sess", fun s => some s, fun _ => .error "down"⟩ 0
        (.oauthToken (some "SESS")) =
      Cent.appResponse ["https://a.example"] ⟨"cid", "s2", "e2"⟩
        ⟨fun p _ => p, fun _ _ => .error "invalid state",
          fun _ => .notOk 500 "", fun _ => .notOk 500 "",
          fun _ => .notOk 500 "", fun _ => .error "boom",
          fun _ _ _ => "sess", fun s => some s, fun _ => .error "down"⟩ 0
        (.oauthToken (some "SESS")) :=
  responses_independent_of_secrets ["https://a.example"]
    "cid" "s1" "s2" "e1" "e2"
    ⟨fun p _ => p, fun _ _ => .error "invalid state",
      fun _ => .notOk 500 "", fun _ => .notOk 500 "",
      fun _ => .notOk 500 "", fun _ => .error "boom",
      fun _ _ _ => "sess", fun s => some s, fun _ => .error "down"⟩ 0
    (.oauthToken (some "SESS"))
    (fun _ => rfl) (fun _ => rfl) (fun _ => rfl) (fun _ => rfl)
    (fun _ _ => rfl) (fun _ _ => rfl)

/-- Deleting a header name removes every case-insensitive match. -/
theorem hasHeader_deleteHeader_self (hs : List (String × String))
    (n : String) : Cent.hasHeader (Cent.deleteHeader hs n) n = false := by
  simp only [Cent.hasHeader, Cent.deleteHeader, List.any_eq_false,
    List.mem_filter, decide_eq_true_eq, beq_iff_eq]
  intro kv h
  exact h.2

/-- Deleting one header name cannot introduce another. -/
theorem hasHeader_deleteHeader_of_eq_false (hs : List (String × String))
    (m n : String) (h : Cent.hasHeader hs n = false) :
    Cent.hasHeader (Cent.deleteHeader hs m) n = false := by
  simp only [Cent.hasHeader, List.any_eq_false, beq_iff_eq] at h ⊢
  intro kv hmem
  exact h kv (List.mem_of_mem_filter hmem)

/-- No scrubbed response-header list carries any of the three names. -/
theorem scrubResponseHeaders_clean (hs : List (String × String)) :
    Cent.hasHeader (Cent.scrubResponseHeaders hs) "Content-Security-Policy"
        = false ∧
    Cent.hasHeader (Cent.scrubResponseHeaders hs) "X-Frame-Options" = false ∧
    Cent.hasHeader (Cent.scrubResponseHeaders hs) "Access-Control-Allow-Origin"
        = false := by
  refine ⟨?_, ?_, ?_⟩
  · exact hasHeader_deleteHeader_of_eq_false _ _ _
      (hasHeader_deleteHeader_of_eq_false _ _ _
        (hasHeader_deleteHeader_self _ _))
  · exact hasHeader_deleteHeader_of_eq_false _ _ _
      (hasHeader_deleteHeader_self _ _)
  · exact hasHeader_deleteHeader_self _ _

/-- C6: for every upstream response the proxy relays, the relayed response
carries no `Content-Security-Policy`, no `X-Frame-Options` and no
upstream-set `Access-Control-Allow-Origin` header — whatever names
(any letter case) and values the target returned. -/
theorem proxy_relay_scrubs_security_headers
    (urlParse : String → Option String) (req : Cent.ProxyRequestIn)
    (fetchOracle : Cent.ForwardedRequest → Except String Cent.UpstreamResponse)
    (target url : String) (resp : Cent.UpstreamResponse)
    (h1 : req.urlParam? = some target) (h2 : target ≠ "")
    (h3 : urlParse target = some url)
    (h4 : fetchOracle (Cent.forwardedRequest url req) = .ok resp) :
    Cent.handleProxy urlParse req fetchOracle =
      .relayed resp.status (Cent.scrubResponseHeaders resp.headers)
        resp.body ∧
    Cent.hasHeader (Cent.scrubResponseHeaders resp.headers)
        "Content-Security-Policy" = false ∧
    Cent.hasHeader (Cent.scrubResponseHeaders resp.headers)
        "X-Frame-Options" = false ∧
    Cent.hasHeader (Cent.scrubResponseHeaders resp.headers)
        "Access-Control-Allow-Origin" = false := by
  refine ⟨?_, scrubResponseHeaders_clean resp.headers⟩
  simp [Cent.handleProxy, Cent.jsTruthy, h1, h2, h3, h4]

/-- Witness for C6: a concrete upstream response returning all three
headers is relayed with all of them scrubbed. -/
theorem proxy_relay_scrubs_security_headers_witness :
    Cent.handleProxy (fun s => some s)
        ⟨"GET", some "https://t.example/a", none, [], []⟩
        (fun _ => .ok ⟨200,
          [("content-security-policy", "default-src one"),
           ("X-Frame-Options", "DENY"),
           ("Access-Control-Allow-Origin", "https://upstream.example"),
           ("Content-Type", "text/html")], [72, 105]⟩) =
      .relayed 200
        (Cent.scrubResponseHeaders
          [("content-security-policy", "default-src one"),
           ("X-Frame-Options", "DENY"),
           ("Access-Control-Allow-Origin", "https://upstream.example"),
           ("Content-Type", "text/html")]) [72, 105] :=
  (proxy_relay_scrubs_security_headers (fun s => some s)
    ⟨"GET", some "https://t.example/a", none, [], []⟩
    (fun _ => .ok ⟨200,
      [("content-security-policy", "default-src one"),
       ("X-Frame-Options", "DENY"),
       ("Access-Control-Allow-Origin", "https://upstream.example"),
       ("Content-Type", "text/html")], [72, 105]⟩)
    "https://t.example/a" "https://t.example/a" _
    rfl (by decide) rfl rfl).1

/-- C5: body presence is decided by the *effective* method.  A request with
`method=PROPFIND` forwards the verb `PROPFIND` together with the raw body
verbatim; a request whose effective method is `GET` or `HEAD` forwards no
body at all; and on the success path the request handed to `fetch` is
exactly `forwardedRequest` (so these properties are what is transmitted). -/
theorem proxy_body_follows_effective_method (url : String)
    (req : Cent.ProxyRequestIn) :
    (req.methodParam? = some "PROPFIND" →
      (Cent.forwardedRequest url req).method = "PROPFIND" ∧
      (Cent.forwardedRequest url req).body = some req.body) ∧
    (Cent.effectiveMethod req.methodParam? req.method = "GET" →
      (Cent.forwardedRequest url req).body = none) ∧
    (Cent.effectiveMethod req.methodParam? req.method = "HEAD" →
      (Cent.forwardedRequest url req).body = none) ∧
    (∀ (urlParse : String → Option String)
       (fetchOracle : Cent.ForwardedRequest →
         Except String Cent.UpstreamResponse) (target : String),
      req.urlParam? = some target → target ≠ "" →
      urlParse target = some url →
      Cent.handleProxy urlParse req fetchOracle =
        (match fetchOracle (Cent.forwardedRequest url req) with
          | .error e =>
            .badGateway ("Failed to fetch target URL: " ++ e)
          | .ok resp =>
            .relayed resp.status (Cent.scrubResponseHeaders resp.headers)
              resp.body)) := by
  refine ⟨fun h => ?_, fun h => ?_, fun h => ?_, ?_⟩
  · have ht : Cent.jsTruthy (some "PROPFIND") = true := by decide
    have hu : Cent.toUpperString "PROPFIND" = "PROPFIND" := by decide
    simp [Cent.forwardedRequest, Cent.effectiveMethod, Cent.forwardedBody,
      h, ht, hu]
  · simp [Cent.forwardedRequest, Cent.forwardedBody, h]
  · simp [Cent.forwardedRequest, Cent.forwardedBody, h]
  · intro urlParse fetchOracle target ht hne hp
    simp [Cent.handleProxy, Cent.jsTruthy, ht, hne, hp]

/-- Witness for C5: a `method=PROPFIND` override with a non-empty body
forwards verb and body; a plain `GET` forwards no body. -/
theorem proxy_body_follows_effective_method_witness :
    ((Cent.forwardedRequest "https://t.example/a"
        ⟨"POST", some "https://t.example/a", some "PROPFIND",
          [("Depth", "1")], [60, 63]⟩).method = "PROPFIND" ∧
      (Cent.forwardedRequest "https://t.example/a"
        ⟨"POST", some "https://t.example/a", some "PROPFIND",
          [("Depth", "1")], [60, 63]⟩).body = some [60, 63]) ∧
    (Cent.forwardedRequest "https://t.example/a"
        ⟨"GET", some "https://t.example/a", none, [], [9, 9]⟩).body = none :=
  ⟨(proxy_body_follows_effective_method "https://t.example/a"
      ⟨"POST", some "https://t.example/a", some "PROPFIND",
        [("Depth", "1")], [60, 63]⟩).1 rfl,
   (proxy_body_follows_effective_method "https://t.example/a"
      ⟨"GET", some "https://t.example/a", none, [], [9, 9]⟩).2.1 (by decide)⟩

/-- C10: the forwarded method is the uppercased form of the supplied
`method` override — `method=propfind` forwards as `PROPFIND` (with the body
decision made on the uppercased verb), so the override is case-insensitive
at the public interface. -/
theorem proxy_method_override_uppercased :
    (∀ (o rm : String), o ≠ "" →
      Cent.effectiveMethod (some o) rm = Cent.toUpperString o) ∧
    Cent.effectiveMethod (some "propfind") "GET" = "PROPFIND" ∧
    (∀ (url : String) (req : Cent.ProxyRequestIn),
      req.methodParam? = some "propfind" →
      (Cent.forwardedRequest url req).method = "PROPFIND" ∧
      (Cent.forwardedRequest url req).body = some req.body) := by
  refine ⟨fun o rm h => ?_, by decide, fun url req h => ?_⟩
  · rw [Cent.effectiveMethod]
    simp [Cent.jsTruthy, h]
  · have ht : Cent.jsTruthy (some "propfind") = true := by decide
    have hu : Cent.toUpperString "propfind" = "PROPFIND" := by decide
    simp [Cent.forwardedRequest, Cent.effectiveMethod, Cent.forwardedBody,
      h, ht, hu]

/-- Witness for C10: a lowercase override is forwarded uppercased. -/
theorem proxy_method_override_uppercased_witness :
    Cent.effectiveMethod (some "get") "POST" = Cent.toUpperString "get" :=
  proxy_method_override_uppercased.1 "get" "POST" (by decide)

/-- C9: decoding under `K` a token produced by encoding payload `P` under
`K` with no expiry yields exactly `P`, at every evaluation time and for
every per-encoding nonce. -/
theorem decodeState_encodeState_roundtrip (P K : String) (nonce now : Nat) :
    Cent.decodeState (Cent.encodeState P K none nonce) K now = .ok P := by
  obtain ⟨d⟩ := P
  simp [Cent.encodeState, Cent.decodeState, List.map_map, Function.comp_def,
    Nat.add_sub_cancel, Char.ofNat_toNat]
